import Mathlib

/-!
# Verification of the invoice-processor extraction pipeline

Shallow embedding of the extraction pipeline of the invoice-processor
backend: the pattern-based field extractor (`nlp_parser.py`), the file
dispatcher of the traditional OCR path (`ocr.py`), the AI processor result
shapes (`ai_processor.py`) and the end-to-end orchestrator
(`process_invoice.py`).  Text is modelled as `String` / `List Char`; the
Python `re` patterns used by the extractor are embedded as abstract syntax
trees interpreted by a backtracking matcher with Python `re.findall`
semantics (leftmost scan, greedy quantifiers, alternation tried left to
right, capture group 1 reported).  External effects (Tesseract, the Gemini
API, the filesystem) are modelled as oracles describing the outcome of the
corresponding call, exactly at the boundaries where the Python code consumes
their results.
-/

namespace InvoiceProc

/-! ## Python string primitives

`pyWsChar` is the ASCII whitespace set of Python's `str.strip` /
`str.split` (all inputs of interest are ASCII).  `stripL` is `str.strip()`,
`splitNlL` is `str.split('\n')`, `containsSub` is the Python substring test
`needle in hay`. -/

def pyWsChar (c : Char) : Bool :=
  c == ' ' || c == '\t' || c == '\n' || c == '\r' || c == '\x0b' || c == '\x0c'

def lstripL (l : List Char) : List Char := l.dropWhile pyWsChar

def rstripL (l : List Char) : List Char := (l.reverse.dropWhile pyWsChar).reverse

def stripL (l : List Char) : List Char := rstripL (lstripL l)

/-- Python `str.strip()`. -/
def pyStrip (s : String) : String := ⟨stripL s.data⟩

/-- Python `str.split('\n')`. -/
def splitNlL : List Char → List (List Char)
  | [] => [[]]
  | '\n' :: cs => [] :: splitNlL cs
  | c :: cs =>
    match splitNlL cs with
    | [] => [[c]]
    | l :: ls => (c :: l) :: ls

/-- Python substring test `needle in hay`. -/
def containsSub (needle hay : List Char) : Bool :=
  hay.tails.any (fun t => needle.isPrefixOf t)

/-- The text normalisation at the top of `extract_structured_data`
(nlp_parser.py lines 10-11 and 96): strip the text, split into lines,
strip each line, drop blank lines, and join the lines with single spaces
into `full_text`. -/
def fullTextOf (s : String) : String :=
  ⟨List.intercalate [' ']
    (((splitNlL (stripL s.data)).map stripL).filter (fun l => !l.isEmpty))⟩

/-! ## A regex engine with Python `re` semantics

Only the constructs appearing in `nlp_parser.py`'s pattern table are
needed: literals, character classes, concatenation, alternation, greedy
star (with the derived `+`, `?`, `{m,}`, `{m,n}` forms), one capturing
group per pattern, and the `^` / `$` anchors.  `mat` enumerates the
possible matches at a fixed start position in backtracking (DFS) order, so
its head is exactly the match Python's backtracking engine finds; `findall`
scans left to right and restarts after each match, which is `re.findall`. -/

/-- A character class: a union of inclusive character ranges. -/
abbrev CharClass := List (Char × Char)

inductive RE where
  | eps
  | lit (c : Char)
  | cls (cc : CharClass)
  | seq (a b : RE)
  | alt (a b : RE)
  | star (a : RE)
  | group (a : RE)
  | bol
  | eol
deriving DecidableEq

/-- Literal comparison under optional `re.IGNORECASE` (ASCII case folding,
as in Python for ASCII input). -/
def eqChar (ci : Bool) (c d : Char) : Bool :=
  c == d || (ci && c.toLower == d.toLower)

/-- Class membership under optional `re.IGNORECASE`: a character is
accepted if it or one of its case variants lies in some range. -/
def inClass (ci : Bool) (cc : CharClass) (d : Char) : Bool :=
  let mem := fun (x : Char) => cc.any (fun p => decide (p.1 ≤ x) && decide (x ≤ p.2))
  mem d || (ci && (mem d.toLower || mem d.toUpper))

/-- One possible match at a fixed position: the consumed characters, the
remaining suffix, and the text captured by group 1 (if the group was
entered). -/
structure MRes where
  consumed : List Char
  rest : List Char
  cap : Option (List Char)
deriving DecidableEq

/-- The character immediately before the current position, after consuming
`l` with previous character `p` (used by the `^` anchor). -/
def lastPrev (p : Option Char) (l : List Char) : Option Char :=
  match l.getLast? with
  | some c => some c
  | none => p

/-- All matches of `r` starting exactly at the current position, in
backtracking order: alternation tries its left branch first, star is
greedy (longest continuation enumerated first).  `prev` is the character
before the position (`none` at the start of the subject), used by `^`.
`fuel` decreases on every recursive call so that the definition is
structural (and hence computable by the kernel); `matchHere` supplies
enough fuel that the `fuel = 0` cutoff is never reached: every recursion
step either moves strictly down the pattern tree or, for a star
unrolling, consumes at least one input character (empty star iterations
are cut off, exactly Python's no-progress rule for repetitions). -/
def mat (ci ml : Bool) : Nat → RE → Option Char → List Char → List MRes
  | 0, _, _, _ => []
  | fuel + 1, r, prev, s =>
    match r with
    | .eps => [⟨[], s, none⟩]
    | .lit c =>
      match s with
      | [] => []
      | d :: ds => if eqChar ci c d then [⟨[d], ds, none⟩] else []
    | .cls cc =>
      match s with
      | [] => []
      | d :: ds => if inClass ci cc d then [⟨[d], ds, none⟩] else []
    | .seq a b =>
      (mat ci ml fuel a prev s).flatMap (fun ra =>
        (mat ci ml fuel b (lastPrev prev ra.consumed) ra.rest).map (fun rb =>
          ⟨ra.consumed ++ rb.consumed, rb.rest, ra.cap.orElse (fun _ => rb.cap)⟩))
    | .alt a b => mat ci ml fuel a prev s ++ mat ci ml fuel b prev s
    | .group a =>
      (mat ci ml fuel a prev s).map (fun r => ⟨r.consumed, r.rest, some r.consumed⟩)
    | .star a =>
      (mat ci ml fuel a prev s).flatMap (fun ra =>
        if ra.consumed.isEmpty then []
        else
          (mat ci ml fuel (.star a) (lastPrev prev ra.consumed) ra.rest).map (fun rb =>
            ⟨ra.consumed ++ rb.consumed, rb.rest, ra.cap.orElse (fun _ => rb.cap)⟩))
      ++ [⟨[], s, none⟩]
    | .bol =>
      if prev.isNone || (ml && prev == some '\n') then [⟨[], s, none⟩] else []
    | .eol =>
      if s.isEmpty || (if ml then s.head? == some '\n' else s == ['\n'])
      then [⟨[], s, none⟩] else []

/-- The number of nodes of a pattern, used to bound the fuel. -/
def reSize : RE → Nat
  | .eps => 1
  | .lit _ => 1
  | .cls _ => 1
  | .seq a b => reSize a + reSize b + 1
  | .alt a b => reSize a + reSize b + 1
  | .star a => reSize a + 1
  | .group a => reSize a + 1
  | .bol => 1
  | .eol => 1

/-- The match Python's engine reports at this position, if any (`re.match`
anchored at the position).  The fuel `(|s| + 1) * (|r| + 2)` dominates the
depth of any recursion chain: between two consumed characters a chain
descends at most once through every node of the pattern. -/
def matchHere (ci ml : Bool) (r : RE) (prev : Option Char) (s : List Char) : Option MRes :=
  (mat ci ml ((s.length + 1) * (reSize r + 2)) r prev s).head?

/-- `re.findall` scan: try each position left to right; on a match report
group 1 (or the whole match when the group was not entered) and resume at
the match end (one character further for an empty match). -/
def findallAux (ci ml : Bool) (r : RE) : Nat → Option Char → List Char → List (List Char)
  | 0, _, _ => []
  | fuel + 1, prev, s =>
    match matchHere ci ml r prev s with
    | some res =>
      let out := res.cap.getD res.consumed
      if res.consumed.isEmpty then
        match s with
        | [] => [out]
        | c :: cs => out :: findallAux ci ml r fuel (some c) cs
      else out :: findallAux ci ml r fuel (lastPrev prev res.consumed) res.rest
    | none =>
      match s with
      | [] => []
      | c :: cs => findallAux ci ml r fuel (some c) cs

/-- `re.findall(pattern, s, flags)` returning the captured strings. -/
def findallStr (ci ml : Bool) (r : RE) (s : String) : List String :=
  (findallAux ci ml r (s.data.length + 1) none s.data).map (fun l => ⟨l⟩)

/-! ### Derived regex constructors (`+`, `?`, `{m}`, `{m,}`, `{m,n}`). -/

def rstrL (s : List Char) : RE := s.foldr (fun c r => RE.seq (.lit c) r) .eps

/-- A literal string in a pattern. -/
def rstr (s : String) : RE := rstrL s.data

def rseq (l : List RE) : RE := l.foldr RE.seq .eps

def ralt : List RE → RE
  | [] => .eps
  | [r] => r
  | r :: rs => .alt r (ralt rs)

/-- Greedy `r+`. -/
def rplus (r : RE) : RE := .seq r (.star r)

/-- Greedy `r?`. -/
def ropt (r : RE) : RE := .alt r .eps

/-- `r{n}`. -/
def rrep (r : RE) : Nat → RE
  | 0 => .eps
  | n + 1 => .seq r (rrep r n)

/-- Greedy `r{0,n}` (tries the longer repetition first). -/
def rupto (r : RE) : Nat → RE
  | 0 => .eps
  | n + 1 => .alt (.seq r (rupto r n)) .eps

/-- Greedy `r{m,}`. -/
def ratLeast (r : RE) (n : Nat) : RE := .seq (rrep r n) (.star r)

/-- Greedy `r{m,n}`. -/
def rbetween (r : RE) (m n : Nat) : RE := .seq (rrep r m) (rupto r (n - m))

/-! ## The pattern table of `extract_structured_data`

Each definition transcribes one raw pattern string from the `patterns`
dict of `nlp_parser.py` (lines 35-93).  All `re.findall` calls in that file
pass `re.IGNORECASE`; only the vendor-name extraction adds `re.MULTILINE`. -/

def ccD : CharClass := [('0', '9')]
def ccAZ : CharClass := [('A', 'Z')]
def ccaz : CharClass := [('a', 'z')]
def ccAlpha : CharClass := [('A', 'Z'), ('a', 'z')]

/-- Python `\s` (ASCII part). -/
def ccWs : CharClass :=
  [(' ', ' '), ('\t', '\t'), ('\n', '\n'), ('\r', '\r'), ('\x0b', '\x0b'), ('\x0c', '\x0c')]

def one (c : Char) : CharClass := [(c, c)]

/-- `\s` as a pattern. -/
def ws : RE := .cls ccWs

/-- `\s*`. -/
def wss : RE := .star ws

/-- `[A-Z\s&\-\.\(\)]`. -/
def ccVN : CharClass :=
  ccAZ ++ ccWs ++ [('&', '&'), ('-', '-'), ('.', '.'), ('(', '('), (')', ')')]

/-- `[A-Za-z\s&\-\.\(\)]`. -/
def ccVN2 : CharClass :=
  ccAlpha ++ ccWs ++ [('&', '&'), ('-', '-'), ('.', '.'), ('(', '('), (')', ')')]

/-- `([A-Za-z][A-Za-z\s&\-\.\(\)]{n,})`. -/
def vnTail (n : Nat) : RE := .group (.seq (.cls ccAlpha) (ratLeast (.cls ccVN2) n))

/-- `^([A-Z][A-Z\s&\-\.\(\)]{10,})`. -/
def vnPat1 : RE := .seq .bol (.group (.seq (.cls ccAZ) (ratLeast (.cls ccVN) 10)))

/-- `From:\s*([A-Za-z][A-Za-z\s&\-\.\(\)]{5,})`. -/
def vnPat2 : RE := rseq [rstr "From:", wss, vnTail 5]

/-- `Bill From:\s*([A-Za-z][A-Za-z\s&\-\.\(\)]{5,})`. -/
def vnPat3 : RE := rseq [rstr "Bill From:", wss, vnTail 5]

/-- `Invoice From:\s*([A-Za-z][A-Za-z\s&\-\.\(\)]{5,})`. -/
def vnPat4 : RE := rseq [rstr "Invoice From:", wss, vnTail 5]

/-- `^([A-Za-z][A-Za-z\s&\-\.\(\)]{10,})\s*$`. -/
def vnPat5 : RE := rseq [.bol, vnTail 10, wss, .eol]

def vendorNamePats : List RE := [vnPat1, vnPat2, vnPat3, vnPat4, vnPat5]

/-- `[a-zA-Z0-9._%+-]`. -/
def ccEm1 : CharClass :=
  ccAlpha ++ ccD ++ [('.', '.'), ('_', '_'), ('%', '%'), ('+', '+'), ('-', '-')]

/-- `[a-zA-Z0-9.-]`. -/
def ccEm2 : CharClass := ccAlpha ++ ccD ++ [('.', '.'), ('-', '-')]

/-- `([a-zA-Z0-9._%+-]+@[a-zA-Z0-9.-]+\.[a-zA-Z]{2,})`. -/
def emailCore : RE :=
  .group (rseq [rplus (.cls ccEm1), .lit '@', rplus (.cls ccEm2), .lit '.',
                ratLeast (.cls ccAlpha) 2])

def emPat1 : RE := emailCore
def emPat2 : RE := rseq [rstr "Email:", wss, emailCore]
def emPat3 : RE := rseq [rstr "E-mail:", wss, emailCore]

def emailPats : List RE := [emPat1, emPat2, emPat3]

/-- `(?:Phone|Tel|Telephone):\s*([+\d\s\-\(\)]{8,})`. -/
def phPat1 : RE :=
  rseq [ralt [rstr "Phone", rstr "Tel", rstr "Telephone"], .lit ':', wss,
        .group (ratLeast (.cls (one '+' ++ ccD ++ ccWs ++ [('-', '-'), ('(', '('), (')', ')')])) 8)]

/-- `[\s\-]?`. -/
def sepOpt : RE := ropt (.cls (ccWs ++ one '-'))

/-- `([+]\d{1,3}[\s\-]?\d{1,4}[\s\-]?\d{4,})`. -/
def phPat2 : RE :=
  .group (rseq [.lit '+', rbetween (.cls ccD) 1 3, sepOpt, rbetween (.cls ccD) 1 4, sepOpt,
                ratLeast (.cls ccD) 4])

/-- `(\(\d{3}\)\s*\d{3}[\-\s]?\d{4})`. -/
def phPat3 : RE :=
  .group (rseq [.lit '(', rrep (.cls ccD) 3, .lit ')', wss, rrep (.cls ccD) 3,
                ropt (.cls (one '-' ++ ccWs)), rrep (.cls ccD) 4])

/-- `(\d{3}[\-\.\s]\d{3}[\-\.\s]\d{4})`. -/
def phPat4 : RE :=
  .group (rseq [rrep (.cls ccD) 3, .cls (one '-' ++ one '.' ++ ccWs), rrep (.cls ccD) 3,
                .cls (one '-' ++ one '.' ++ ccWs), rrep (.cls ccD) 4])

def phonePats : List RE := [phPat1, phPat2, phPat3, phPat4]

/-- `[A-Za-z0-9\-]`. -/
def ccIdent : CharClass := ccAlpha ++ ccD ++ one '-'

/-- `(?:Number|#|No\.?)`. -/
def numHashNo : RE := ralt [rstr "Number", .lit '#', .seq (rstr "No") (ropt (.lit '.'))]

/-- `(?:Number|#|No\.?):\s*([A-Za-z0-9\-]+)`, the shared tail of the
labelled identifier patterns. -/
def idSuffix : RE := rseq [numHashNo, .lit ':', wss, .group (rplus (.cls ccIdent))]

/-- `Invoice\s*(?:Number|#|No\.?):\s*([A-Za-z0-9\-]+)`. -/
def invPat1 : RE := rseq [rstr "Invoice", wss, idSuffix]

/-- `Invoice\s*([A-Za-z0-9\-]+)`. -/
def invPat2 : RE := rseq [rstr "Invoice", wss, .group (rplus (.cls ccIdent))]

/-- `INV[\-\s]*(\d+)`. -/
def invPat3 : RE := rseq [rstr "INV", .star (.cls (one '-' ++ ccWs)), .group (rplus (.cls ccD))]

/-- `(?:^|\n)([A-Za-z]{2,4}\-\d+)`. -/
def invPat4 : RE :=
  rseq [.alt .bol (.lit '\n'),
        .group (rseq [rbetween (.cls ccAlpha) 2 4, .lit '-', rplus (.cls ccD)])]

/-- `#\s*([A-Za-z0-9\-]+)`. -/
def invPat5 : RE := rseq [.lit '#', wss, .group (rplus (.cls ccIdent))]

def invoicePats : List RE := [invPat1, invPat2, invPat3, invPat4, invPat5]

def cuPat1 : RE := rseq [rstr "Customer", wss, idSuffix]
def cuPat2 : RE := rseq [rstr "Client", wss, idSuffix]
def cuPat3 : RE := rseq [rstr "Account", wss, idSuffix]

def customerPats : List RE := [cuPat1, cuPat2, cuPat3]

/-- `VAT\s*(?:Number|#|No\.?):\s*([A-Za-z0-9\-]+)`. -/
def vatPat1 : RE := rseq [rstr "VAT", wss, idSuffix]

/-- `Tax\s*(?:ID|Number):\s*([A-Za-z0-9\-]+)`. -/
def vatPat2 : RE :=
  rseq [rstr "Tax", wss, ralt [rstr "ID", rstr "Number"], .lit ':', wss,
        .group (rplus (.cls ccIdent))]

/-- `GST\s*(?:Number|#):\s*([A-Za-z0-9\-]+)`. -/
def vatPat3 : RE :=
  rseq [rstr "GST", wss, ralt [rstr "Number", .lit '#'], .lit ':', wss,
        .group (rplus (.cls ccIdent))]

/-- `ABN:\s*([A-Za-z0-9\-\s]+)`. -/
def vatPat4 : RE := rseq [rstr "ABN:", wss, .group (rplus (.cls (ccIdent ++ ccWs)))]

def vatPats : List RE := [vatPat1, vatPat2, vatPat3, vatPat4]

/-- `[\$£€¥]`. -/
def ccCur : CharClass := [('$', '$'), ('£', '£'), ('€', '€'), ('¥', '¥')]

/-- `([\d,]+\.?\d{0,2})`, the captured amount. -/
def amtGroup : RE :=
  .group (rseq [rplus (.cls (ccD ++ one ',')), ropt (.lit '.'), rupto (.cls ccD) 2])

/-- `Total\s*(?:Due|Amount)?:?\s*[\$£€¥]?([\d,]+\.?\d{0,2})`. -/
def taPat1 : RE :=
  rseq [rstr "Total", wss, ropt (ralt [rstr "Due", rstr "Amount"]), ropt (.lit ':'), wss,
        ropt (.cls ccCur), amtGroup]

/-- `Amount\s*(?:Due)?:?\s*[\$£€¥]?([\d,]+\.?\d{0,2})`. -/
def taPat2 : RE :=
  rseq [rstr "Amount", wss, ropt (rstr "Due"), ropt (.lit ':'), wss, ropt (.cls ccCur), amtGroup]

/-- `Grand\s*Total:?\s*[\$£€¥]?([\d,]+\.?\d{0,2})`. -/
def taPat3 : RE :=
  rseq [rstr "Grand", wss, rstr "Total", ropt (.lit ':'), wss, ropt (.cls ccCur), amtGroup]

/-- `Final\s*Total:?\s*[\$£€¥]?([\d,]+\.?\d{0,2})`. -/
def taPat4 : RE :=
  rseq [rstr "Final", wss, rstr "Total", ropt (.lit ':'), wss, ropt (.cls ccCur), amtGroup]

/-- `[\$£€¥]([\d,]+\.?\d{0,2})(?:\s*(?:USD|EUR|GBP|CAD))?$`. -/
def taPat5 : RE :=
  rseq [.cls ccCur, amtGroup,
        ropt (rseq [wss, ralt [rstr "USD", rstr "EUR", rstr "GBP", rstr "CAD"]]), .eol]

def totalPats : List RE := [taPat1, taPat2, taPat3, taPat4, taPat5]

/-- `[\/\-\.]`, the date separator class. -/
def dsep : RE := .cls [('/', '/'), ('-', '-'), ('.', '.')]

/-- `(?:Jan|Feb|Mar|Apr|May|Jun|Jul|Aug|Sep|Oct|Nov|Dec)`. -/
def months : RE :=
  ralt [rstr "Jan", rstr "Feb", rstr "Mar", rstr "Apr", rstr "May", rstr "Jun",
        rstr "Jul", rstr "Aug", rstr "Sep", rstr "Oct", rstr "Nov", rstr "Dec"]

/-- `\d{1,2}`. -/
def d12 : RE := rbetween (.cls ccD) 1 2

/-- `\d{2,4}`. -/
def d24 : RE := rbetween (.cls ccD) 2 4

/-- `(\d{1,2}[\/\-\.]\d{1,2}[\/\-\.]\d{2,4})`. -/
def daPat1 : RE := .group (rseq [d12, dsep, d12, dsep, d24])

/-- `(\d{1,2}\s+(?:Jan|...|Dec)[a-z]*\s+\d{2,4})`. -/
def daPat2 : RE := .group (rseq [d12, rplus ws, months, .star (.cls ccaz), rplus ws, d24])

/-- `((?:Jan|...|Dec)[a-z]*\s+\d{1,2},?\s+\d{2,4})`. -/
def daPat3 : RE :=
  .group (rseq [months, .star (.cls ccaz), rplus ws, d12, ropt (.lit ','), rplus ws, d24])

/-- `(\d{2,4}[\/\-\.]\d{1,2}[\/\-\.]\d{1,2})`. -/
def daPat4 : RE := .group (rseq [d24, dsep, d12, dsep, d12])

/-- `(\d{1,2}\.\d{1,2}\.\d{2,4})`. -/
def daPat5 : RE := .group (rseq [d12, .lit '.', d12, .lit '.', d24])

def datePats : List RE := [daPat1, daPat2, daPat3, daPat4, daPat5]

/-! ## `extract_structured_data` (nlp_parser.py lines 4-169)

Every simple field runs the same loop: `for pattern in patterns[field]:
matches = re.findall(pattern, full_text, re.IGNORECASE); if matches:
result[field] = f(matches[0]); break` — i.e. the first pattern whose match
list is non-empty wins with its first match.  `firstSome` is that loop. -/

def firstSome {α β : Type} (f : α → Option β) : List α → Option β
  | [] => none
  | a :: as =>
    match f a with
    | some b => some b
    | none => firstSome f as

/-- The first-nonempty-findall cascade shared by the email, phone, invoice
number, customer number, VAT number and total amount loops (with
`re.IGNORECASE` only). -/
def cascadeRaw (pats : List RE) (ft : String) : Option String :=
  firstSome (fun p => (findallStr true false p ft).head?) pats

/-- A cascade whose winning match is post-processed with `.strip()` (the
phone, invoice number, customer number and VAT number loops). -/
def cascadeStripped (pats : List RE) (ft : String) : Option String :=
  (cascadeRaw pats ft).map pyStrip

/-- The false-positive filter of the vendor-name loop (lines 105-109):
`len(match) > 5 and 'Page' not in match and 'Invoice' not in match and
'Total' not in match and not re.match(r'^\d+', match)` on the stripped
match. -/
def vnFilter (m : List Char) : Bool :=
  decide (5 < m.length) && !containsSub "Page".data m && !containsSub "Invoice".data m &&
    !containsSub "Total".data m &&
    !(match m with
      | c :: _ => c.isDigit
      | [] => false)

/-- The inner vendor-name loop for one pattern (lines 100-111): find all
matches (with `re.IGNORECASE | re.MULTILINE`), strip each, and take the
first one passing the filter. -/
def vnPick (p : RE) (ft : String) : Option String :=
  firstSome
    (fun m =>
      let m' := pyStrip m
      if vnFilter m'.data then some m' else none)
    (findallStr true true p ft)

/-- The vendor-name cascade over an arbitrary pattern list. -/
def vnCascade (pats : List RE) (ft : String) : Option String :=
  firstSome (fun p => vnPick p ft) pats

def vendorNameOf (ft : String) : Option String := vnCascade vendorNamePats ft

def vendorEmailOf (ft : String) : Option String := cascadeRaw emailPats ft

def vendorPhoneOf (ft : String) : Option String := cascadeStripped phonePats ft

def invoiceNumberOf (ft : String) : Option String := cascadeStripped invoicePats ft

def customerNumberOf (ft : String) : Option String := cascadeStripped customerPats ft

def vatNumberOf (ft : String) : Option String := cascadeStripped vatPats ft

/-- Lines 154-156: `amount = matches[0].replace(',', '');
result['total_amount'] = f"${amount}"` — a literal `'$'` prepended to the
comma-free winning match, whatever currency symbol the text used. -/
def moneyFormat (m : String) : String := ⟨'$' :: m.data.filter (fun c => !(c == ','))⟩

def totalAmountOf (ft : String) : Option String := (cascadeRaw totalPats ft).map moneyFormat

/-- Lines 160-163: `all_dates = []; for pattern in patterns['dates']:
all_dates.extend(re.findall(pattern, full_text, re.IGNORECASE))`. -/
def allDatesOf (ft : String) : List String :=
  datePats.foldl (fun acc p => acc ++ findallStr true false p ft) []

/-- Lines 166-167: `unique_dates = list(set(all_dates));
result['dates_found'] = unique_dates[:5]`.  CPython's set iteration order
is unspecified; the model deduplicates with `List.dedup` (any order with
the same membership is a faithful model, and no theorem below depends on
the order). -/
def datesFoundOf (ft : String) : List String := (allDatesOf ft).dedup.take 5

/-- The output dict of `extract_structured_data` (and of
`parse_invoice_text`, which adds an `error` key on its failure shapes). -/
structure ParsedRecord where
  vendor_name : Option String
  vendor_email : Option String
  vendor_phone : Option String
  vendor_address : Option String
  invoice_number : Option String
  invoice_date : Option String
  due_date : Option String
  customer_name : Option String
  customer_number : Option String
  vat_number : Option String
  total_amount : Option String
  subtotal : Option String
  tax_amount : Option String
  currency : Option String
  payment_terms : Option String
  description : Option String
  dates_found : List String
  error : Option String
deriving DecidableEq

/-- `extract_structured_data`: normalise the text into `full_text` and run
every field's own pattern cascade over it.  The Python code fills a result
dict field by field; no field's extraction reads another field's result,
so the dict-mutation sequence is exactly this record of per-field
extractors, each a function of `full_text` alone.  The fields that no code
path assigns (`vendor_address`, `invoice_date`, `due_date`,
`customer_name`, `subtotal`, `tax_amount`, `currency`, `payment_terms`,
`description`) keep their initial `None`. -/
def extract_structured_data (text : String) : ParsedRecord :=
  let ft := fullTextOf text
  { vendor_name := vendorNameOf ft
    vendor_email := vendorEmailOf ft
    vendor_phone := vendorPhoneOf ft
    vendor_address := none
    invoice_number := invoiceNumberOf ft
    invoice_date := none
    due_date := none
    customer_name := none
    customer_number := customerNumberOf ft
    vat_number := vatNumberOf ft
    total_amount := totalAmountOf ft
    subtotal := none
    tax_amount := none
    currency := none
    payment_terms := none
    description := none
    dates_found := datesFoundOf ft
    error := none }

/-- The all-`None` record with an `error` message that `parse_invoice_text`
returns on short input (nlp_parser.py lines 176-196). -/
def nullParsed (err : String) : ParsedRecord :=
  { vendor_name := none, vendor_email := none, vendor_phone := none, vendor_address := none
    invoice_number := none, invoice_date := none, due_date := none, customer_name := none
    customer_number := none, vat_number := none, total_amount := none, subtotal := none
    tax_amount := none, currency := none, payment_terms := none, description := none
    dates_found := [], error := some err }

/-- `parse_invoice_text` (nlp_parser.py lines 171-222): guard on
`not text or len(text.strip()) < 10`, else extract.  The `except` arm
around `extract_structured_data` is dead in the model because the embedded
extractor is total. -/
def parse_invoice_text (text : String) : ParsedRecord :=
  if text = "" ∨ (pyStrip text).length < 10 then
    nullParsed "Text too short or empty for processing"
  else extract_structured_data text

/-! ## `process_file` (ocr.py lines 146-176)

The filesystem and Tesseract are modelled as an oracle: whether the file
exists, its lowercased extension (what `os.path.splitext(...)[1].lower()`
yields), and the text that `extract_text_from_pdf` / `extract_text_from_image`
would return for it.  Both of those helpers wrap their entire bodies in
`try/except` and return a plain string (`""` on any internal error), so
they never raise and the `except` arm of `process_file` is dead in the
model. -/

structure FileSys where
  exists_ : Bool
  /-- The lowercased extension, including the leading dot. -/
  ext : String
  /-- The string `extract_text_from_pdf` returns for this file when called. -/
  pdfText : String
  /-- The string `extract_text_from_image` returns for this file when called. -/
  imgText : String
deriving DecidableEq

def imageExts : List String := [".jpg", ".jpeg", ".png", ".tiff", ".tif", ".bmp", ".webp"]

/-- The f-string `f"Error: Unsupported file type '{file_extension}'. ..."`
(ocr.py line 173), built as an explicit character-list concatenation so its
shape is visible to the strip lemmas below. -/
def errUnsupported (ext : String) : String :=
  ⟨"Error: Unsupported file type '".data ++ ext.data ++
    "'. Supported formats: PDF, JPG, JPEG, PNG, TIFF, BMP, WebP".data⟩

def process_file (fs : FileSys) : String :=
  if fs.exists_ = false then "Error: File not found"
  else if fs.ext = ".pdf" then fs.pdfText
  else if fs.ext ∈ imageExts then fs.imgText
  else errUnsupported fs.ext

/-! ## The AI processor (ai_processor.py)

The Gemini request and JSON parse are modelled as an outcome oracle: either
the reply parsed to a record (`ok`), `json.loads` raised
`JSONDecodeError` (`parseError`), or any other exception was raised
(`requestError`).  `process_image_with_ai` catches all three cases itself
and returns a dict — it never raises. -/

/-- The JSON record shape the extraction prompt demands (ai_processor.py
lines 39-53); all values nullable. -/
structure AiRecord where
  vendor_name : Option String
  vendor_email : Option String
  vendor_phone : Option String
  invoice_number : Option String
  invoice_date : Option String
  po_number : Option String
  vat_number : Option String
  total_amount : Option String
  subtotal : Option String
  tax_amount : Option String
  payment_terms : Option String
  dates_found : List String
deriving DecidableEq

/-- An `AiRecord` with every field null. -/
def nullAiRecord : AiRecord :=
  { vendor_name := none, vendor_email := none, vendor_phone := none, invoice_number := none
    invoice_date := none, po_number := none, vat_number := none, total_amount := none
    subtotal := none, tax_amount := none, payment_terms := none, dates_found := [] }

inductive AiCallOutcome where
  /-- The API replied and the fence-stripped payload parsed as JSON. -/
  | ok (data : AiRecord)
  /-- `json.loads` raised `JSONDecodeError` with message `msg`. -/
  | parseError (msg : String)
  /-- Any other exception with message `msg` (transport, file handling, API). -/
  | requestError (msg : String)
deriving DecidableEq

/-- The result dict returned by `process_image_with_ai` /
`process_pdf_with_ai` as the orchestrator reads it: the `success` flag and
the optional `extracted_data`, `confidence` and `error` keys. -/
structure AiResult where
  success : Bool
  extracted_data : Option AiRecord
  confidence : Option String
  error : Option String
deriving DecidableEq

/-- A failure dict (`success: False` with an error message). -/
def aiFail (msg : String) : AiResult :=
  { success := false, extracted_data := none, confidence := none, error := some msg }

/-- `process_image_with_ai` (ai_processor.py lines 56-128). -/
def process_image_with_ai (o : AiCallOutcome) : AiResult :=
  match o with
  | .ok d =>
    { success := true, extracted_data := some d, confidence := some "high", error := none }
  | .parseError m => aiFail ("AI response parsing error: " ++ m)
  | .requestError m => aiFail ("AI processing error: " ++ m)

/-- The scratch-file operations `process_pdf_with_ai` performs: creating
the `NamedTemporaryFile(delete=False)` PNG and `os.unlink`-ing it. -/
inductive FileOp where
  | create
  | delete
deriving DecidableEq

/-- The outcome oracle for one `process_pdf_with_ai` call. -/
structure PdfEnv where
  /-- The high-quality `convert_from_path` call: pages, or the exception message. -/
  hiConv : Except String (List Unit)
  /-- The 200-DPI fallback `convert_from_path` call (consulted only if the
  first raised): pages, or the exception message. -/
  loConv : Except String (List Unit)
  /-- `pages[0].save(...)` on the temporary PNG: unit, or the exception message. -/
  savePage : Except String Unit
  /-- The outcome of the Gemini call on the temporary image. -/
  imgCall : AiCallOutcome

/-- `process_pdf_with_ai` (ai_processor.py lines 130-189), returning the
result dict together with the scratch-file operations performed, in order.
If both conversions raise, the exception reaches the outer handler before
any file is created.  The temporary PNG is created by
`NamedTemporaryFile(delete=False)`; if `pages[0].save` then raises, the
exception reaches the outer handler with the file still on disk (the
`try/finally` that unlinks it only wraps the `process_image_with_ai`
call).  `process_image_with_ai` never raises, so on the saved path the
`finally` always unlinks the file. -/
def process_pdf_with_ai (e : PdfEnv) : AiResult × List FileOp :=
  match (match e.hiConv with
         | .ok p => Except.ok p
         | .error _ => e.loConv) with
  | .error m => (aiFail ("PDF processing error: " ++ m), [])
  | .ok pages =>
    if pages.isEmpty then (aiFail "Could not convert PDF to image", [])
    else
      match e.savePage with
      | .error m => (aiFail ("PDF processing error: " ++ m), [FileOp.create])
      | .ok _ => (process_image_with_ai e.imgCall, [FileOp.create, FileOp.delete])

/-! ## The orchestrator `process_invoice_end_to_end` (process_invoice.py)

The environment records the caller's `use_ai` flag, what
`create_ai_processor()` yields (`none` when `GEMINI_API_KEY` is unset)
together with the result dict the processor's `process_pdf_with_ai` /
`process_image_with_ai` call returns for this file, and the filesystem
oracle for the traditional path.  Besides the envelope the model returns
the ordered trace of pipeline calls, so that "is never invoked" claims are
statable.  The metadata keys (`filename`, `file_size_bytes`, `file_type`,
`processing_timestamp`, `confidence_scores`) are constants or
caller-supplied pass-through values no claim mentions, and are omitted.
All modelled callees catch their own exceptions and return values, so the
orchestrator's last-resort `except` arm (lines 114-123) is dead in the
model. -/

inductive Event where
  /-- An AI strategy attempt (`process_pdf_with_ai` / `process_image_with_ai`). -/
  | aiAttempt
  /-- The traditional text recovery (`process_with_traditional_ocr`). -/
  | ocrExtract
  /-- The pattern extractor (`parse_invoice_text`). -/
  | patternParse
deriving DecidableEq

/-- The `extracted_data` slot of the envelope: the initial all-null dict of
lines 32-45, the pattern extractor's record, or the AI record. -/
inductive ExtractedData where
  | initial
  | parsed (r : ParsedRecord)
  | aiData (r : AiRecord)
deriving DecidableEq

/-- The envelope fields the claims are about.  `confidence`,
`ai_processing`, `error` and `extracted_text_length` are keys only some
paths add, hence `Option`. -/
structure Envelope where
  success : Bool
  processing_method : String
  extracted_data : ExtractedData
  confidence : Option String
  error : Option String
  ai_processing : Option Bool
  extracted_text_length : Option Nat
deriving DecidableEq

structure OrchEnv where
  use_ai : Bool
  /-- `create_ai_processor()` paired with the eventual AI call: `none` when
  no processor is available, `some r` when a processor exists and its AI
  call on this file returns the dict `r`. -/
  ai_processor : Option AiResult
  fs : FileSys
deriving DecidableEq

/-- The traditional branch (process_invoice.py lines 83-112), appended to
the trace accumulated so far. -/
def ocrBranch (fs : FileSys) (tr : List Event) : Envelope × List Event :=
  if process_file fs = "" ∨ (pyStrip (process_file fs)).length < 10 then
    ({ success := false, processing_method := "Traditional OCR",
       extracted_data := ExtractedData.initial, confidence := none,
       error := some "Could not extract meaningful text from document",
       ai_processing := some false, extracted_text_length := none },
     tr ++ [Event.ocrExtract])
  else
    ({ success := true, processing_method := "Traditional OCR + NLP",
       extracted_data := ExtractedData.parsed (parse_invoice_text (process_file fs)),
       confidence := some "medium", error := none, ai_processing := some false,
       extracted_text_length := some (process_file fs).length },
     tr ++ [Event.ocrExtract, Event.patternParse])

def process_invoice_end_to_end (env : OrchEnv) : Envelope × List Event :=
  match env.use_ai, env.ai_processor with
  | true, some aiRes =>
    if aiRes.success then
      ({ success := true, processing_method := "AI (Google Gemini)",
         extracted_data :=
           match aiRes.extracted_data with
           | some d => ExtractedData.aiData d
           | none => ExtractedData.initial,
         confidence := some (aiRes.confidence.getD "high"), error := none,
         ai_processing := some true, extracted_text_length := none },
       [Event.aiAttempt])
    else ocrBranch env.fs [Event.aiAttempt]
  | true, none => ocrBranch env.fs []
  | false, _ => ocrBranch env.fs []

/-! ## Helper lemmas -/

/-- The traditional branch on empty or too-short recovered text. -/
theorem ocrBranch_short (fs : FileSys) (tr : List Event)
    (h : process_file fs = "" ∨ (pyStrip (process_file fs)).length < 10) :
    ocrBranch fs tr =
      ({ success := false, processing_method := "Traditional OCR",
         extracted_data := ExtractedData.initial, confidence := none,
         error := some "Could not extract meaningful text from document",
         ai_processing := some false, extracted_text_length := none },
       tr ++ [Event.ocrExtract]) := by
  unfold ocrBranch
  rw [if_pos h]

/-- The traditional branch on sufficiently long recovered text. -/
theorem ocrBranch_long (fs : FileSys) (tr : List Event)
    (h : ¬(process_file fs = "" ∨ (pyStrip (process_file fs)).length < 10)) :
    ocrBranch fs tr =
      ({ success := true, processing_method := "Traditional OCR + NLP",
         extracted_data := ExtractedData.parsed (parse_invoice_text (process_file fs)),
         confidence := some "medium", error := none, ai_processing := some false,
         extracted_text_length := some (process_file fs).length },
       tr ++ [Event.ocrExtract, Event.patternParse]) := by
  unfold ocrBranch
  rw [if_neg h]

/-- Whenever the orchestrator is on the traditional-OCR path (AI not
requested, no AI processor, or a failed AI attempt), the whole run is the
traditional branch with the corresponding trace prefix. -/
theorem orch_on_ocr_path (env : OrchEnv)
    (hpath : env.use_ai = false ∨ env.ai_processor = none ∨
      ∃ r, env.ai_processor = some r ∧ r.success = false) :
    process_invoice_end_to_end env = ocrBranch env.fs [] ∨
    process_invoice_end_to_end env = ocrBranch env.fs [Event.aiAttempt] := by
  obtain ⟨ua, ap, fs⟩ := env
  rcases hpath with h | h | ⟨r, hr, hs⟩
  · cases h
    cases ap <;> exact Or.inl rfl
  · cases h
    cases ua <;> exact Or.inl rfl
  · cases hr
    cases ua
    · exact Or.inl rfl
    · right
      show (if r.success then _ else ocrBranch fs [Event.aiAttempt]) = _
      rw [hs]
      simp

/-! Projection lemmas: each field of `extract_structured_data` is its own
cascade over the normalised text.  (Stated once and shared, so later proofs
rewrite syntactically instead of re-deriving the unfolding.) -/

theorem extract_vendor_name_eq (t : String) :
    (extract_structured_data t).vendor_name = vnCascade vendorNamePats (fullTextOf t) := by
  simp only [extract_structured_data, vendorNameOf]

theorem extract_vendor_email_eq (t : String) :
    (extract_structured_data t).vendor_email = cascadeRaw emailPats (fullTextOf t) := by
  simp only [extract_structured_data, vendorEmailOf]

theorem extract_vendor_phone_eq (t : String) :
    (extract_structured_data t).vendor_phone =
      (cascadeRaw phonePats (fullTextOf t)).map pyStrip := by
  simp only [extract_structured_data, vendorPhoneOf, cascadeStripped]

theorem extract_invoice_number_eq (t : String) :
    (extract_structured_data t).invoice_number =
      (cascadeRaw invoicePats (fullTextOf t)).map pyStrip := by
  simp only [extract_structured_data, invoiceNumberOf, cascadeStripped]

theorem extract_customer_number_eq (t : String) :
    (extract_structured_data t).customer_number =
      (cascadeRaw customerPats (fullTextOf t)).map pyStrip := by
  simp only [extract_structured_data, customerNumberOf, cascadeStripped]

theorem extract_vat_number_eq (t : String) :
    (extract_structured_data t).vat_number =
      (cascadeRaw vatPats (fullTextOf t)).map pyStrip := by
  simp only [extract_structured_data, vatNumberOf, cascadeStripped]

theorem extract_total_amount_eq (t : String) :
    (extract_structured_data t).total_amount =
      (cascadeRaw totalPats (fullTextOf t)).map moneyFormat := by
  simp only [extract_structured_data, totalAmountOf]

theorem extract_dates_found_eq (t : String) :
    (extract_structured_data t).dates_found =
      ((allDatesOf (fullTextOf t)).dedup).take 5 := by
  simp only [extract_structured_data, datesFoundOf]

/-- Patterns with an empty `findall` are skipped by the plain cascade. -/
theorem cascadeRaw_append_of_none {ft : String} {ps₁ : List RE} (ps₂ : List RE)
    (h : ∀ q ∈ ps₁, findallStr true false q ft = []) :
    cascadeRaw (ps₁ ++ ps₂) ft = cascadeRaw ps₂ ft := by
  induction ps₁ with
  | nil => rfl
  | cons a l ih =>
    have ha : (findallStr true false a ft).head? = none := by
      rw [h a (List.mem_cons_self a l)]
      rfl
    have ih' := ih (fun q hq => h q (List.mem_cons_of_mem a hq))
    unfold cascadeRaw at ih' ⊢
    rw [List.cons_append]
    simp only [firstSome, ha]
    exact ih'

/-- The plain cascade stops at the head pattern when it has a match. -/
theorem cascadeRaw_cons_some {ft : String} {p : RE} {m : String} (ps : List RE)
    (hm : (findallStr true false p ft).head? = some m) :
    cascadeRaw (p :: ps) ft = some m := by
  unfold cascadeRaw
  simp only [firstSome, hm]

/-- Patterns none of whose matches pass the filter are skipped by the
vendor-name cascade. -/
theorem vnCascade_append_of_none {ft : String} {ps₁ : List RE} (ps₂ : List RE)
    (h : ∀ q ∈ ps₁, vnPick q ft = none) :
    vnCascade (ps₁ ++ ps₂) ft = vnCascade ps₂ ft := by
  induction ps₁ with
  | nil => rfl
  | cons a l ih =>
    have ha := h a (List.mem_cons_self a l)
    have ih' := ih (fun q hq => h q (List.mem_cons_of_mem a hq))
    unfold vnCascade at ih' ⊢
    rw [List.cons_append]
    simp only [firstSome, ha]
    exact ih'

/-- The vendor-name cascade stops at the head pattern when one of its
matches passes the filter. -/
theorem vnCascade_cons_some {ft : String} {p : RE} {v : String} (ps : List RE)
    (hv : vnPick p ft = some v) :
    vnCascade (p :: ps) ft = some v := by
  unfold vnCascade
  simp only [firstSome, hv]

theorem mem_foldl_append {α β : Type} (f : α → List β) (l : List α) (init : List β) (x : β) :
    x ∈ l.foldl (fun acc p => acc ++ f p) init ↔ x ∈ init ∨ ∃ p ∈ l, x ∈ f p := by
  induction l generalizing init with
  | nil => simp
  | cons a t ih =>
    simp only [List.foldl_cons, ih, List.mem_append, List.mem_cons]
    constructor
    · rintro (⟨h | h⟩ | ⟨p, hp, hx⟩)
      · exact Or.inl h
      · exact Or.inr ⟨a, Or.inl rfl, h⟩
      · exact Or.inr ⟨p, Or.inr hp, hx⟩
    · rintro (h | ⟨p, hp | hp, hx⟩)
      · exact Or.inl (Or.inl h)
      · exact Or.inl (Or.inr (hp ▸ hx))
      · exact Or.inr ⟨p, hp, hx⟩

/-- Membership in the accumulated date-match list is membership in some
date pattern's `findall`. -/
theorem mem_allDatesOf (ft : String) (d : String) :
    d ∈ allDatesOf ft ↔ ∃ p ∈ datePats, d ∈ findallStr true false p ft := by
  unfold allDatesOf
  rw [mem_foldl_append]
  simp

theorem lstripL_cons {c : Char} (l : List Char) (h : pyWsChar c = false) :
    lstripL (c :: l) = c :: l := by
  simp [lstripL, List.dropWhile_cons, h]

theorem rstripL_concat {c : Char} (l : List Char) (h : pyWsChar c = false) :
    rstripL (l ++ [c]) = l ++ [c] := by
  simp [rstripL, List.dropWhile_cons, h]

/-- `str.strip()` is the identity on a string whose first and last
characters are not whitespace. -/
theorem stripL_shape {a b : Char} (l : List Char) (ha : pyWsChar a = false)
    (hb : pyWsChar b = false) :
    stripL (a :: (l ++ [b])) = a :: (l ++ [b]) := by
  unfold stripL
  rw [lstripL_cons _ ha, show a :: (l ++ [b]) = (a :: l) ++ [b] from rfl,
    rstripL_concat _ hb]

/-- The unsupported-type error string, decomposed around its first and last
characters. -/
theorem errUnsupported_data (ext : String) :
    (errUnsupported ext).data =
      'E' :: (("rror: Unsupported file type '".data ++ ext.data ++
        "'. Supported formats: PDF, JPG, JPEG, PNG, TIFF, BMP, We".data) ++ ['b', 'P']) := by
  show "Error: Unsupported file type '".data ++ ext.data ++
      "'. Supported formats: PDF, JPG, JPEG, PNG, TIFF, BMP, WebP".data = _
  rw [show "Error: Unsupported file type '".data =
        'E' :: "rror: Unsupported file type '".data from rfl,
    show "'. Supported formats: PDF, JPG, JPEG, PNG, TIFF, BMP, WebP".data =
        "'. Supported formats: PDF, JPG, JPEG, PNG, TIFF, BMP, We".data ++ ['b', 'P'] from by decide]
  simp

/-- `strip` leaves the unsupported-type error string unchanged. -/
theorem errUnsupported_strip (ext : String) :
    pyStrip (errUnsupported ext) = errUnsupported ext := by
  have h := errUnsupported_data ext
  show (⟨stripL (errUnsupported ext).data⟩ : String) = errUnsupported ext
  rw [h, show ('b' :: ['P'] : List Char) = ['b'] ++ ['P'] from rfl]
  rw [← List.append_assoc]
  rw [stripL_shape _ (by decide) (by decide)]
  have h' := errUnsupported_data ext
  rw [show ('b' :: ['P'] : List Char) = ['b'] ++ ['P'] from rfl, ← List.append_assoc] at h'
  exact congrArg String.mk h'.symm

/-- The unsupported-type error string is always at least 10 characters. -/
theorem errUnsupported_length (ext : String) : 10 ≤ (errUnsupported ext).length := by
  show 10 ≤ (errUnsupported ext).data.length
  rw [errUnsupported_data ext]
  simp [List.length_append]

/-! ## Claims -/

/-- **C1.** For every input on the traditional-OCR path, if the recovered
OCR text is empty or its stripped length is under 10 characters,
`process_invoice_end_to_end` returns an envelope with `success = false`,
processing method `"Traditional OCR"`, the "no meaningful text" error, and
`extracted_data` left in its initial all-null shape; `parse_invoice_text`
is never invoked on such input. -/
theorem claim_C1 (env : OrchEnv)
    (hpath : env.use_ai = false ∨ env.ai_processor = none ∨
      ∃ r, env.ai_processor = some r ∧ r.success = false)
    (htext : process_file env.fs = "" ∨ (pyStrip (process_file env.fs)).length < 10) :
    (process_invoice_end_to_end env).1.success = false ∧
    (process_invoice_end_to_end env).1.processing_method = "Traditional OCR" ∧
    (process_invoice_end_to_end env).1.error =
      some "Could not extract meaningful text from document" ∧
    (process_invoice_end_to_end env).1.extracted_data = ExtractedData.initial ∧
    Event.patternParse ∉ (process_invoice_end_to_end env).2 := by
  rcases orch_on_ocr_path env hpath with h | h <;>
    rw [h, ocrBranch_short env.fs _ htext] <;>
    exact ⟨rfl, rfl, rfl, rfl, by simp⟩

theorem claim_C1_witness :
    (process_invoice_end_to_end ⟨false, none, ⟨true, ".png", "", ""⟩⟩).1.success = false ∧
    (process_invoice_end_to_end ⟨false, none, ⟨true, ".png", "", ""⟩⟩).1.processing_method =
      "Traditional OCR" ∧
    (process_invoice_end_to_end ⟨false, none, ⟨true, ".png", "", ""⟩⟩).1.error =
      some "Could not extract meaningful text from document" ∧
    (process_invoice_end_to_end ⟨false, none, ⟨true, ".png", "", ""⟩⟩).1.extracted_data =
      ExtractedData.initial ∧
    Event.patternParse ∉ (process_invoice_end_to_end ⟨false, none, ⟨true, ".png", "", ""⟩⟩).2 :=
  claim_C1 ⟨false, none, ⟨true, ".png", "", ""⟩⟩ (Or.inl rfl) (Or.inl rfl)

/-- **C2.** When AI processing is requested, a processor is available, and
the AI attempt reports `success = false`, the orchestrator automatically
falls back to the traditional path; when that path recovers non-empty text
of stripped length at least 10, the final envelope carries the OCR+pattern
method tag (not the AI tag), confidence `"medium"`, and the trace shows the
fallback ran after the AI attempt. -/
theorem claim_C2 (env : OrchEnv) (r : AiResult)
    (hai : env.use_ai = true) (hproc : env.ai_processor = some r) (hfail : r.success = false)
    (hne : process_file env.fs ≠ "")
    (hlen : 10 ≤ (pyStrip (process_file env.fs)).length) :
    (process_invoice_end_to_end env).1.success = true ∧
    (process_invoice_end_to_end env).1.processing_method = "Traditional OCR + NLP" ∧
    (process_invoice_end_to_end env).1.confidence = some "medium" ∧
    (process_invoice_end_to_end env).2 =
      [Event.aiAttempt, Event.ocrExtract, Event.patternParse] := by
  have hcond : ¬(process_file env.fs = "" ∨ (pyStrip (process_file env.fs)).length < 10) := by
    push_neg
    exact ⟨hne, hlen⟩
  obtain ⟨ua, ap, fs⟩ := env
  cases hai
  cases hproc
  have hred : process_invoice_end_to_end ⟨true, some r, fs⟩ =
      ocrBranch fs [Event.aiAttempt] := by
    show (if r.success then _ else ocrBranch fs [Event.aiAttempt]) = _
    rw [hfail]
    simp
  rw [hred, ocrBranch_long fs _ hcond]
  exact ⟨rfl, rfl, rfl, rfl⟩

theorem claim_C2_witness :
    (process_invoice_end_to_end
      ⟨true, some (process_image_with_ai (AiCallOutcome.requestError "simulated failure")),
        ⟨true, ".png", "", "Invoice Number: INV-001 Total: $12.00"⟩⟩).1.success = true ∧
    (process_invoice_end_to_end
      ⟨true, some (process_image_with_ai (AiCallOutcome.requestError "simulated failure")),
        ⟨true, ".png", "", "Invoice Number: INV-001 Total: $12.00"⟩⟩).1.processing_method =
      "Traditional OCR + NLP" ∧
    (process_invoice_end_to_end
      ⟨true, some (process_image_with_ai (AiCallOutcome.requestError "simulated failure")),
        ⟨true, ".png", "", "Invoice Number: INV-001 Total: $12.00"⟩⟩).1.confidence =
      some "medium" ∧
    (process_invoice_end_to_end
      ⟨true, some (process_image_with_ai (AiCallOutcome.requestError "simulated failure")),
        ⟨true, ".png", "", "Invoice Number: INV-001 Total: $12.00"⟩⟩).2 =
      [Event.aiAttempt, Event.ocrExtract, Event.patternParse] :=
  claim_C2 _ _ rfl rfl rfl (by decide) (by decide)

/-- **C3.** Whenever the AI attempt reports `success = true`, the
orchestrator terminates immediately with `success = true`, confidence
`"high"` and the AI method tag; the trace is exactly the AI attempt, so the
OCR/pattern fallback never runs — success is decided solely by the AI
result's own success flag, for every returned record (including the
all-null one). -/
theorem claim_C3 (env : OrchEnv) (o : AiCallOutcome)
    (hai : env.use_ai = true)
    (hproc : env.ai_processor = some (process_image_with_ai o))
    (hsucc : (process_image_with_ai o).success = true) :
    (process_invoice_end_to_end env).1.success = true ∧
    (process_invoice_end_to_end env).1.processing_method = "AI (Google Gemini)" ∧
    (process_invoice_end_to_end env).1.confidence = some "high" ∧
    (process_invoice_end_to_end env).2 = [Event.aiAttempt] ∧
    Event.ocrExtract ∉ (process_invoice_end_to_end env).2 ∧
    Event.patternParse ∉ (process_invoice_end_to_end env).2 := by
  obtain ⟨ua, ap, fs⟩ := env
  cases hai
  cases hproc
  cases o with
  | ok d =>
    refine ⟨rfl, rfl, rfl, rfl, ?_, ?_⟩ <;>
      · show _ ∉ [Event.aiAttempt]
        simp
  | parseError m => simp [process_image_with_ai, aiFail] at hsucc
  | requestError m => simp [process_image_with_ai, aiFail] at hsucc

theorem claim_C3_witness :
    (process_invoice_end_to_end
      ⟨true, some (process_image_with_ai (AiCallOutcome.ok nullAiRecord)),
        ⟨true, ".png", "", ""⟩⟩).1.success = true ∧
    (process_invoice_end_to_end
      ⟨true, some (process_image_with_ai (AiCallOutcome.ok nullAiRecord)),
        ⟨true, ".png", "", ""⟩⟩).1.processing_method = "AI (Google Gemini)" ∧
    (process_invoice_end_to_end
      ⟨true, some (process_image_with_ai (AiCallOutcome.ok nullAiRecord)),
        ⟨true, ".png", "", ""⟩⟩).1.confidence = some "high" ∧
    (process_invoice_end_to_end
      ⟨true, some (process_image_with_ai (AiCallOutcome.ok nullAiRecord)),
        ⟨true, ".png", "", ""⟩⟩).2 = [Event.aiAttempt] ∧
    Event.ocrExtract ∉ (process_invoice_end_to_end
      ⟨true, some (process_image_with_ai (AiCallOutcome.ok nullAiRecord)),
        ⟨true, ".png", "", ""⟩⟩).2 ∧
    Event.patternParse ∉ (process_invoice_end_to_end
      ⟨true, some (process_image_with_ai (AiCallOutcome.ok nullAiRecord)),
        ⟨true, ".png", "", ""⟩⟩).2 :=
  claim_C3 _ (AiCallOutcome.ok nullAiRecord) rfl rfl rfl

/-- **C8 (counterexample).** The claim "every execution of
`process_pdf_with_ai` deletes the temporary PNG on every exit path —
including exceptions raised while saving the page image" is false: when the
PDF converts successfully but `pages[0].save` raises, the
`NamedTemporaryFile(delete=False)` PNG has already been created, the
exception propagates to the outer handler, and the file is never unlinked
(the `try/finally` that deletes it only wraps `process_image_with_ai`). -/
theorem claim_C8_counterexample :
    (process_pdf_with_ai
      ⟨Except.ok [()], Except.ok [()], Except.error "disk full",
        AiCallOutcome.requestError "unreached"⟩).2 = [FileOp.create] ∧
    FileOp.delete ∉ (process_pdf_with_ai
      ⟨Except.ok [()], Except.ok [()], Except.error "disk full",
        AiCallOutcome.requestError "unreached"⟩).2 :=
  ⟨rfl, by decide⟩

/-- **C8 (amended).** On every exit path on which saving the page image
succeeds — including every failure of the image-extraction call itself —
the temporary PNG is deleted before `process_pdf_with_ai` returns: the
scratch-file trace is balanced (creations equal deletions).  If the save
raises, the file survives (see the counterexample). -/
theorem claim_C8_amended (e : PdfEnv) (h : e.savePage = Except.ok ()) :
    (process_pdf_with_ai e).2.count FileOp.create =
      (process_pdf_with_ai e).2.count FileOp.delete := by
  obtain ⟨hi, lo, sv, ic⟩ := e
  cases sv with
  | error m => exact absurd h (by simp)
  | ok u =>
    cases hi with
    | error m =>
      cases lo with
      | error m2 => rfl
      | ok p => cases p <;> rfl
    | ok p => cases p <;> rfl

theorem claim_C8_witness :
    (process_pdf_with_ai
      ⟨Except.ok [()], Except.ok [()], Except.ok (),
        AiCallOutcome.parseError "bad json"⟩).2.count FileOp.create =
    (process_pdf_with_ai
      ⟨Except.ok [()], Except.ok [()], Except.ok (),
        AiCallOutcome.parseError "bad json"⟩).2.count FileOp.delete :=
  claim_C8_amended
    ⟨Except.ok [()], Except.ok [()], Except.ok (), AiCallOutcome.parseError "bad json"⟩ rfl

/-- **C9.** For every file that does not exist, or whose extension is
neither `.pdf` nor a supported image type, `process_file` returns an
English error string (never raises, never returns empty text); that string
always has stripped length at least 10, so the orchestrator's
traditional-OCR path treats it as recovered invoice text: the envelope
reports `success = true` with method `"Traditional OCR + NLP"` and
confidence `"medium"`, and the pattern extractor is invoked on the error
string — not an input-error failure. -/
theorem claim_C9 (env : OrchEnv)
    (hpath : env.use_ai = false ∨ env.ai_processor = none ∨
      ∃ r, env.ai_processor = some r ∧ r.success = false)
    (hbad : env.fs.exists_ = false ∨
      (env.fs.exists_ = true ∧ env.fs.ext ≠ ".pdf" ∧ env.fs.ext ∉ imageExts)) :
    (process_file env.fs = "Error: File not found" ∨
      process_file env.fs = errUnsupported env.fs.ext) ∧
    10 ≤ (pyStrip (process_file env.fs)).length ∧
    (process_invoice_end_to_end env).1.success = true ∧
    (process_invoice_end_to_end env).1.processing_method = "Traditional OCR + NLP" ∧
    (process_invoice_end_to_end env).1.confidence = some "medium" ∧
    Event.patternParse ∈ (process_invoice_end_to_end env).2 := by
  have hout : (process_file env.fs = "Error: File not found" ∨
      process_file env.fs = errUnsupported env.fs.ext) := by
    rcases hbad with h | ⟨h1, h2, h3⟩
    · left
      unfold process_file
      rw [if_pos h]
    · right
      unfold process_file
      rw [if_neg (by rw [h1]; simp), if_neg h2, if_neg h3]
  have hlen : 10 ≤ (pyStrip (process_file env.fs)).length := by
    rcases hout with h | h <;> rw [h]
    · decide
    · rw [errUnsupported_strip]
      exact errUnsupported_length env.fs.ext
  have hne : process_file env.fs ≠ "" := by
    intro he
    rw [he] at hlen
    simp [pyStrip, stripL, lstripL, rstripL, String.length] at hlen
  have hcond : ¬(process_file env.fs = "" ∨ (pyStrip (process_file env.fs)).length < 10) := by
    push_neg
    exact ⟨hne, hlen⟩
  rcases orch_on_ocr_path env hpath with h | h <;>
    rw [h, ocrBranch_long env.fs _ hcond] <;>
    exact ⟨hout, hlen, rfl, rfl, rfl, by simp⟩

theorem claim_C9_witness :
    (process_file (⟨false, ".png", "", ""⟩ : FileSys) = "Error: File not found" ∨
      process_file (⟨false, ".png", "", ""⟩ : FileSys) =
        errUnsupported (FileSys.ext ⟨false, ".png", "", ""⟩)) ∧
    10 ≤ (pyStrip (process_file (⟨false, ".png", "", ""⟩ : FileSys))).length ∧
    (process_invoice_end_to_end ⟨false, none, ⟨false, ".png", "", ""⟩⟩).1.success = true ∧
    (process_invoice_end_to_end ⟨false, none, ⟨false, ".png", "", ""⟩⟩).1.processing_method =
      "Traditional OCR + NLP" ∧
    (process_invoice_end_to_end ⟨false, none, ⟨false, ".png", "", ""⟩⟩).1.confidence =
      some "medium" ∧
    Event.patternParse ∈ (process_invoice_end_to_end ⟨false, none, ⟨false, ".png", "", ""⟩⟩).2 :=
  claim_C9 ⟨false, none, ⟨false, ".png", "", ""⟩⟩ (Or.inl rfl) (Or.inl rfl)

/-- **C4 (counterexample).** The claim "for every semantic field, the first
pattern that matches anywhere in the text determines the field's value;
once a pattern succeeds the remaining patterns are never tried" fails for
`vendor_name`: on `"Invoice From: Acme Corporation"` the field's first
pattern (`^([A-Z][A-Z\s&\-\.\(\)]{10,})`, with `re.IGNORECASE`) matches —
its `findall` is `["Invoice From"]` — yet the extracted value is
`"Acme Corporation"`, which is not among that pattern's matches: the match
was discarded by the false-positive filter (it contains `"Invoice"`) and a
later pattern was still tried and won. -/
theorem claim_C4_counterexample :
    vendorNamePats.head? = some vnPat1 ∧
    findallStr true true vnPat1 (fullTextOf "Invoice From: Acme Corporation") =
      ["Invoice From"] ∧
    (extract_structured_data "Invoice From: Acme Corporation").vendor_name =
      some "Acme Corporation" ∧
    "Acme Corporation" ∉
      findallStr true true vnPat1 (fullTextOf "Invoice From: Acme Corporation") :=
  ⟨rfl, by decide, by decide, by decide⟩

/-- **C4 (amended).** For every field extracted by the plain first-match
cascade — email, phone, invoice number, customer number, VAT number and
total amount — the candidate patterns are tried in listed order and the
first pattern whose `findall` is non-empty determines the field's value
from its first match; the remaining patterns for that field are never
consulted (the cascade result only depends on the list up to the winning
pattern).  For `vendor_name` the same holds with "pattern matches" replaced
by "pattern has a match that passes the false-positive filter": a pattern
all of whose matches are filtered out is skipped and later patterns are
still tried. -/
theorem claim_C4_amended :
    (∀ (ft : String) (ps₁ ps₂ : List RE) (p : RE) (m : String),
      (∀ q ∈ ps₁, findallStr true false q ft = []) →
      (findallStr true false p ft).head? = some m →
      cascadeRaw (ps₁ ++ p :: ps₂) ft = some m ∧
      cascadeRaw (ps₁ ++ p :: ps₂) ft = cascadeRaw (ps₁ ++ [p]) ft) ∧
    (∀ t : String,
      (extract_structured_data t).vendor_email = cascadeRaw emailPats (fullTextOf t) ∧
      (extract_structured_data t).vendor_phone =
        (cascadeRaw phonePats (fullTextOf t)).map pyStrip ∧
      (extract_structured_data t).invoice_number =
        (cascadeRaw invoicePats (fullTextOf t)).map pyStrip ∧
      (extract_structured_data t).customer_number =
        (cascadeRaw customerPats (fullTextOf t)).map pyStrip ∧
      (extract_structured_data t).vat_number =
        (cascadeRaw vatPats (fullTextOf t)).map pyStrip ∧
      (extract_structured_data t).total_amount =
        (cascadeRaw totalPats (fullTextOf t)).map moneyFormat) ∧
    (∀ (ft : String) (ps₁ ps₂ : List RE) (p : RE) (v : String),
      (∀ q ∈ ps₁, vnPick q ft = none) →
      vnPick p ft = some v →
      vnCascade (ps₁ ++ p :: ps₂) ft = some v ∧
      vnCascade (ps₁ ++ p :: ps₂) ft = vnCascade (ps₁ ++ [p]) ft) := by
  refine ⟨?_, fun t =>
    ⟨extract_vendor_email_eq t, extract_vendor_phone_eq t, extract_invoice_number_eq t,
     extract_customer_number_eq t, extract_vat_number_eq t, extract_total_amount_eq t⟩, ?_⟩
  · intro ft ps₁ ps₂ p m h hm
    rw [cascadeRaw_append_of_none _ h, cascadeRaw_append_of_none _ h,
      cascadeRaw_cons_some _ hm, cascadeRaw_cons_some _ hm]
    exact ⟨rfl, rfl⟩
  · intro ft ps₁ ps₂ p v h hv
    rw [vnCascade_append_of_none _ h, vnCascade_append_of_none _ h,
      vnCascade_cons_some _ hv, vnCascade_cons_some _ hv]
    exact ⟨rfl, rfl⟩

theorem claim_C4_witness :
    cascadeRaw ([] ++ invPat1 :: [invPat2, invPat3, invPat4, invPat5])
      (fullTextOf "Invoice Number: INV-2024-001") = some "INV-2024-001" ∧
    cascadeRaw ([] ++ invPat1 :: [invPat2, invPat3, invPat4, invPat5])
      (fullTextOf "Invoice Number: INV-2024-001") =
      cascadeRaw ([] ++ [invPat1]) (fullTextOf "Invoice Number: INV-2024-001") :=
  claim_C4_amended.1 (fullTextOf "Invoice Number: INV-2024-001") []
    [invPat2, invPat3, invPat4, invPat5] invPat1 "INV-2024-001" (by simp) (by decide)

/-- **C5.** For every input text, `dates_found` is the deduplication of the
union of the matches of all five date patterns (none short-circuited),
truncated to at most 5 entries: its length is at most 5, it contains no
duplicate strings, every entry is a match of some date pattern, and every
match of every date pattern reaches the pre-truncation deduplicated list.
(CPython's `set` iteration order is unspecified, so the relative order of
the deduplicated entries carries no meaning; no conjunct here depends on
it.) -/
theorem claim_C5 (t : String) :
    (extract_structured_data t).dates_found.length ≤ 5 ∧
    (extract_structured_data t).dates_found.Nodup ∧
    (extract_structured_data t).dates_found = ((allDatesOf (fullTextOf t)).dedup).take 5 ∧
    (∀ d, d ∈ (allDatesOf (fullTextOf t)).dedup ↔
      ∃ p ∈ datePats, d ∈ findallStr true false p (fullTextOf t)) ∧
    (∀ d ∈ (extract_structured_data t).dates_found,
      ∃ p ∈ datePats, d ∈ findallStr true false p (fullTextOf t)) := by
  have hdef : (extract_structured_data t).dates_found =
      ((allDatesOf (fullTextOf t)).dedup).take 5 := extract_dates_found_eq t
  have hmem : ∀ d, d ∈ (allDatesOf (fullTextOf t)).dedup ↔
      ∃ p ∈ datePats, d ∈ findallStr true false p (fullTextOf t) := by
    intro d
    rw [List.mem_dedup]
    exact mem_allDatesOf (fullTextOf t) d
  refine ⟨?_, ?_, hdef, hmem, ?_⟩
  · rw [hdef, List.length_take]
    exact min_le_left _ _
  · rw [hdef]
    exact (List.take_sublist _ _).nodup (List.nodup_dedup _)
  · intro d hd
    rw [hdef] at hd
    exact (hmem d).mp (List.mem_of_mem_take hd)

theorem claim_C5_witness :
    ∃ p ∈ datePats, "01/15/2024" ∈ findallStr true false p
      (fullTextOf "Invoice Number: INV-2024-001\nTotal: $1,234.56\nDate: 01/15/2024") :=
  (claim_C5 "Invoice Number: INV-2024-001\nTotal: $1,234.56\nDate: 01/15/2024").2.2.2.2
    "01/15/2024" (by decide)

/-- **C6.** On the concrete scenario text, the extractor returns invoice
number `INV-2024-001`, total amount `$1234.56` (the winning match
`1,234.56` with its thousands separator stripped and the `$` marker
attached), and a `dates_found` list containing `01/15/2024`. -/
theorem claim_C6 :
    (extract_structured_data
      "Invoice Number: INV-2024-001\nTotal: $1,234.56\nDate: 01/15/2024").invoice_number =
      some "INV-2024-001" ∧
    (extract_structured_data
      "Invoice Number: INV-2024-001\nTotal: $1,234.56\nDate: 01/15/2024").total_amount =
      some "$1234.56" ∧
    "01/15/2024" ∈ (extract_structured_data
      "Invoice Number: INV-2024-001\nTotal: $1,234.56\nDate: 01/15/2024").dates_found :=
  ⟨by decide, by decide, by decide⟩

/-- **C7 (counterexample).** The claim "removing the substring that matches
one field's winning pattern does not change the value assigned to any other
field" is false.  On `"From: john@x.com Company Inc"` the email field wins
with `"john@x.com"` and `vendor_name` is `None` (the email blocks the
`From:` vendor pattern: `john` is too short before the `@`).  Removing
exactly the email's matched substring yields `"From:  Company Inc"`, on
which `vendor_name` becomes `"Company Inc"`. -/
theorem claim_C7_counterexample :
    "From: john@x.com Company Inc" = "From: " ++ "john@x.com" ++ " Company Inc" ∧
    "From:  Company Inc" = "From: " ++ "" ++ " Company Inc" ∧
    (extract_structured_data "From: john@x.com Company Inc").vendor_email =
      some "john@x.com" ∧
    (extract_structured_data "From: john@x.com Company Inc").vendor_name = none ∧
    (extract_structured_data "From:  Company Inc").vendor_name = some "Company Inc" :=
  ⟨rfl, rfl, by decide, by decide, by decide⟩

/-- **C7 (amended).** Field extraction is computationally independent: each
field's value is a function of the shared normalised text alone, computed
by that field's own cascade — no field's extraction reads another field's
result, and two raw inputs with the same normalised `full_text` extract
identically.  Editing the text itself (for instance removing one field's
matched substring) can, however, change what other fields' patterns see,
so textual independence fails (see the counterexample). -/
theorem claim_C7_amended (t : String) :
    ((extract_structured_data t).vendor_name = vnCascade vendorNamePats (fullTextOf t) ∧
     (extract_structured_data t).vendor_email = cascadeRaw emailPats (fullTextOf t) ∧
     (extract_structured_data t).vendor_phone =
       (cascadeRaw phonePats (fullTextOf t)).map pyStrip ∧
     (extract_structured_data t).invoice_number =
       (cascadeRaw invoicePats (fullTextOf t)).map pyStrip ∧
     (extract_structured_data t).customer_number =
       (cascadeRaw customerPats (fullTextOf t)).map pyStrip ∧
     (extract_structured_data t).vat_number =
       (cascadeRaw vatPats (fullTextOf t)).map pyStrip ∧
     (extract_structured_data t).total_amount =
       (cascadeRaw totalPats (fullTextOf t)).map moneyFormat ∧
     (extract_structured_data t).dates_found = ((allDatesOf (fullTextOf t)).dedup).take 5) ∧
    (∀ t', fullTextOf t = fullTextOf t' →
      extract_structured_data t = extract_structured_data t') := by
  refine ⟨⟨extract_vendor_name_eq t, extract_vendor_email_eq t, extract_vendor_phone_eq t,
    extract_invoice_number_eq t, extract_customer_number_eq t, extract_vat_number_eq t,
    extract_total_amount_eq t, extract_dates_found_eq t⟩, ?_⟩
  intro t' h
  simp only [extract_structured_data]
  rw [h]

theorem claim_C7_witness :
    extract_structured_data "a\nb" = extract_structured_data " a \n b " :=
  (claim_C7_amended "a\nb").2 " a \n b " (by decide)

/-- **C10.** Whenever some total-amount pattern matches, the extractor sets
`total_amount` to the captured digits with commas removed behind a literal
`"$"` prefix — regardless of which currency symbol (`£`, `€`, `¥`, or
none) appears in the text: the result always starts with `'$'` and
contains no comma, and the original marker is never preserved (the capture
group covers only digits, commas and the decimal point). -/
theorem claim_C10 (t v : String)
    (h : (extract_structured_data t).total_amount = some v) :
    ∃ m, cascadeRaw totalPats (fullTextOf t) = some m ∧ v = moneyFormat m ∧
      v.data.head? = some '$' ∧ ',' ∉ v.data := by
  have h' : (cascadeRaw totalPats (fullTextOf t)).map moneyFormat = some v := by
    rw [← extract_total_amount_eq t]
    exact h
  cases hc : cascadeRaw totalPats (fullTextOf t) with
  | none =>
    rw [hc] at h'
    exact absurd h' (by simp)
  | some m =>
    rw [hc] at h'
    have hv : moneyFormat m = v := by
      have h2 : some (moneyFormat m) = some v := h'
      injection h2
    refine ⟨m, rfl, hv.symm, ?_, ?_⟩
    · rw [← hv]
      rfl
    · rw [← hv]
      intro hmem
      rcases List.mem_cons.mp hmem with h1 | h1
      · exact absurd h1 (by decide)
      · have h3 := (List.mem_filter.mp h1).2
        simp at h3

theorem claim_C10_witness :
    ∃ m, cascadeRaw totalPats (fullTextOf "Total: £1,234.50") = some m ∧
      "$1234.50" = moneyFormat m ∧ ("$1234.50" : String).data.head? = some '$' ∧
      ',' ∉ ("$1234.50" : String).data :=
  claim_C10 "Total: £1,234.50" "$1234.50" (by decide)

end InvoiceProc
